import Mathlib

/-!
Shallow embedding of the session bridge in `src/main.rs` of the
live-translation relay: the JSON value model, the upstream protocol
adapter (the reader task of `handle_ws`), the client-inbound loop
(audio gate, turn lifecycle tracker, commit handling), and the
translation-directive table `instructions_for`.

Times are modelled as natural-number milliseconds; `Instant::elapsed`
at a check performed at time `now` with a stored timestamp `t` becomes
`now - t` (truncated subtraction, timestamps never exceed `now`).
-/

/-- JSON values, as produced by parsing an upstream or client text frame.
Numbers are rationals (the source only ever builds the literal `0.6`). -/
inductive Json where
  | null : Json
  | bool (b : Bool) : Json
  | num (q : Rat) : Json
  | str (s : String) : Json
  | arr (xs : List Json) : Json
  | obj (kvs : List (String × Json)) : Json

/-- First-match association lookup on an object field list
(parsed objects have unique keys). -/
def lookupKey : List (String × Json) → String → Option Json
  | [], _ => none
  | (k, v) :: rest, key => if k = key then some v else lookupKey rest key

/-- `v.get(key)` on a JSON value: field lookup on objects, `none` otherwise. -/
def jget (j : Json) (k : String) : Option Json :=
  match j with
  | Json.obj kvs => lookupKey kvs k
  | _ => none

/-- `as_str()` on a JSON value. -/
def asStr (j : Json) : Option String :=
  match j with
  | Json.str s => some s
  | _ => none

/-- `v.get("type").and_then(as_str).unwrap_or("-")`: the event-type tag
used by the reader task to classify upstream events. -/
def eventType (j : Json) : String :=
  ((jget j "type").bind asStr).getD "-"

/-- Outward events published to the room channel (the reader task sends
them JSON-encoded over the broadcast channel; we keep the tag and payload). -/
inductive Outward where
  | partialEv (text : String) : Outward
  | finalEv (text : String) : Outward
  | errorEv (data : Json) : Outward

/-- Recognizer for `final` outward events. -/
def isFinalEv : Outward → Bool
  | Outward.finalEv _ => true
  | _ => false

/-- State touched by the reader task: the running text buffer
`current_buf`, the shared `response_active` flag and the shared
`last_delta` timestamp. -/
structure ReaderState where
  current_buf : String
  response_active : Bool
  last_delta : Nat

/-- One iteration of the reader task of `handle_ws` on a parsed upstream
text frame `v`, at time `now`: the match on the event-type tag
(`response.created`, the two delta shapes, the done family, `error`,
anything else ignored). Returns the new state and the outward events
sent to the room channel, in order. -/
def readerStep (now : Nat) (v : Json) (st : ReaderState) : ReaderState × List Outward :=
  let t := eventType v
  if t = "response.created" then
    ({ st with response_active := true }, [])
  else if t = "response.output_text.delta" ∨ t = "response.text.delta" then
    match (jget v "delta").bind asStr with
    | some delta =>
        ({ current_buf := st.current_buf ++ delta
           response_active := st.response_active
           last_delta := now },
         [Outward.partialEv (st.current_buf ++ delta)])
    | none => (st, [])
  else if t = "response.delta" then
    match jget v "delta" with
    | some d =>
        if (jget d "type").bind asStr = some "output_text.delta" then
          match (jget d "text").bind asStr with
          | some delta =>
              ({ current_buf := st.current_buf ++ delta
                 response_active := st.response_active
                 last_delta := now },
               [Outward.partialEv (st.current_buf ++ delta)])
          | none => (st, [])
        else (st, [])
    | none => (st, [])
  else if t = "response.output_text.done" ∨ t = "response.completed" ∨
          t = "response.text.done" ∨ t = "response.done" then
    if st.current_buf ≠ "" then
      ({ current_buf := ""
         response_active := false
         last_delta := st.last_delta },
       [Outward.finalEv st.current_buf])
    else
      ({ st with response_active := false }, [])
  else if t = "error" then
    ({ st with response_active := false }, [Outward.errorEv v])
  else (st, [])

/-- Run the reader task over a list of timestamped upstream events,
collecting the outward events in emission order. -/
def readerRun : List (Nat × Json) → ReaderState → ReaderState × List Outward
  | [], st => (st, [])
  | e :: rest, st =>
      ((readerRun rest (readerStep e.1 e.2 st).1).1,
       (readerStep e.1 e.2 st).2 ++ (readerRun rest (readerStep e.1 e.2 st).1).2)

/-- `j` is an upstream text-delta event carrying string `d`: either the
flat shape (`response.output_text.delta` / `response.text.delta` with a
string `delta` field) or the nested shape (`response.delta` whose `delta`
object is tagged `output_text.delta` with a string `text` field). -/
def isDeltaEvent (j : Json) (d : String) : Prop :=
  ((eventType j = "response.output_text.delta" ∨ eventType j = "response.text.delta") ∧
    (jget j "delta").bind asStr = some d) ∨
  (eventType j = "response.delta" ∧
    ∃ dd, jget j "delta" = some dd ∧
      (jget dd "type").bind asStr = some "output_text.delta" ∧
      (jget dd "text").bind asStr = some d)

/-- `j` is one of the four done-style upstream events. -/
def isDoneEvent (j : Json) : Prop :=
  eventType j = "response.output_text.done" ∨ eventType j = "response.completed" ∨
  eventType j = "response.text.done" ∨ eventType j = "response.done"

/-- Concatenation of a list of strings in order. -/
def concatAll : List String → String
  | [] => ""
  | d :: ds => d ++ concatAll ds

/-- `json_instr` from the source: the translation instruction string,
with the literal JSON shape the upstream engine must answer with. -/
def json_instr (src tgt name : String) : String :=
  "You are a real-time translator for " ++ name ++ ". First transcribe in " ++ src ++
  ". Then translate to " ++ tgt ++ " only. Respond EXACTLY one JSON: \x7b\"src\":\"<" ++ src ++
  " transcript>\",\"tgt\":\"<" ++ tgt ++ " translation>\"\x7d. If " ++ tgt ++
  " is 日本語, use Japanese script (かな/漢字), no romaji, no English."

/-- `instructions_for` from the source: maps a language-pair code and a
display name to the source-language hint and the instruction string;
the wildcard arm falls back to Indonesian-to-English with hint `id`. -/
def instructions_for (pair name : String) : String × String :=
  if pair = "id-ja" then ("id", json_instr "Indonesian" "日本語" name)
  else if pair = "ja-id" then ("ja", json_instr "日本語" "Indonesian" name)
  else if pair = "id-en" then ("id", json_instr "Indonesian" "English" name)
  else if pair = "en-id" then ("en", json_instr "English" "Indonesian" name)
  else if pair = "id-ko" then ("id", json_instr "Indonesian" "한국어" name)
  else if pair = "ko-id" then ("ko", json_instr "한국어" "Indonesian" name)
  else if pair = "id-ar" then ("id", json_instr "Indonesian" "العربية" name)
  else if pair = "ar-id" then ("ar", json_instr "العربية" "Indonesian" name)
  else if pair = "id-de" then ("id", json_instr "Indonesian" "Deutsch" name)
  else if pair = "de-id" then ("de", json_instr "Deutsch" "Indonesian" name)
  else if pair = "id-fr" then ("id", json_instr "Indonesian" "Français" name)
  else if pair = "fr-id" then ("fr", json_instr "Français" "Indonesian" name)
  else if pair = "id-nl" then ("id", json_instr "Indonesian" "Nederlands" name)
  else if pair = "nl-id" then ("nl", json_instr "Nederlands" "Indonesian" name)
  else if pair = "id-ru" then ("id", json_instr "Indonesian" "Русский" name)
  else if pair = "ru-id" then ("ru", json_instr "Русский" "Indonesian" name)
  else if pair = "id-es" then ("id", json_instr "Indonesian" "Español" name)
  else if pair = "es-id" then ("es", json_instr "Español" "Indonesian" name)
  else ("id", json_instr "Indonesian" "English" name)

/-- The language-pair codes matched by a non-wildcard arm of
`instructions_for`. -/
def recognized_pairs : List String :=
  ["id-ja", "ja-id", "id-en", "en-id", "id-ko", "ko-id", "id-ar", "ar-id",
   "id-de", "de-id", "id-fr", "fr-id", "id-nl", "nl-id", "id-ru", "ru-id",
   "id-es", "es-id"]

/-- Client messages the speaker connection understands
(serde internally tagged on `type`). -/
inductive ClientMsg where
  | Init (name pair : String) : ClientMsg
  | Commit : ClientMsg

/-- Parsing a JSON client text frame as a `ClientMsg`: classify on the
string `type` tag; `init` needs string `name` and `pair` fields;
anything else fails. -/
def parseClientMsg (j : Json) : Option ClientMsg :=
  match (jget j "type").bind asStr with
  | some "init" =>
      match (jget j "name").bind asStr, (jget j "pair").bind asStr with
      | some name, some pair => some (ClientMsg.Init name pair)
      | _, _ => none
  | some "commit" => some ClientMsg.Commit
  | _ => none

/-- Directives the client-inbound loop sends upstream. JSON directives
carry their exact payload; the audio-append directive carries the raw
bytes (the wire frame base64-encodes them, the encoding is not relevant
here). Bytes are modelled as naturals below 256. -/
inductive Directive where
  | text (j : Json) : Directive
  | audioAppend (bytes : List Nat) : Directive

/-- The `session.update` payload built on init: instructions, text-only
modalities, and the transcription-model plus source-language hint.
Note that it carries no `turn_detection` field. -/
def session_update_msg (instr src_lang : String) : Json :=
  Json.obj [("type", Json.str "session.update"),
            ("session", Json.obj
              [("instructions", Json.str instr),
               ("modalities", Json.arr [Json.str "text"]),
               ("input_audio_transcription", Json.obj
                 [("model", Json.str "gpt-4o-mini-transcribe"),
                  ("language", Json.str src_lang)])])]

/-- The `input_audio_buffer.commit` directive. -/
def commit_msg_up : Json :=
  Json.obj [("type", Json.str "input_audio_buffer.commit")]

/-- The `response.create` directive: text-only, no persisted
conversation, temperature 0.6. -/
def create_msg : Json :=
  Json.obj [("type", Json.str "response.create"),
            ("response", Json.obj
              [("modalities", Json.arr [Json.str "text"]),
               ("conversation", Json.str "none"),
               ("temperature", Json.num (6 / 10 : Rat))])]

/-- The `response.cancel` directive. -/
def cancel_msg : Json :=
  Json.obj [("type", Json.str "response.cancel")]

/-- Per-session client-loop state: the `inited` flag, the accumulated
audio byte counter, and the shared `response_active` flag and
`last_delta` timestamp. -/
structure ClientState where
  inited : Bool
  audio_buffer_size : Nat
  response_active : Bool
  last_delta : Nat

/-- 24 kHz sample rate of the audio contract. -/
def SAMPLE_RATE : Nat := 24000

/-- PCM16: two bytes per sample. -/
def BYTES_PER_SAMPLE : Nat := 2

/-- Minimum buffered duration required to admit a commit, in ms. -/
def MIN_DURATION_MS : Nat := 100

/-- `min_samples` as computed in the commit arm. -/
def min_samples : Nat := SAMPLE_RATE * MIN_DURATION_MS / 1000

/-- `min_bytes` as computed in the commit arm. -/
def min_bytes : Nat := min_samples * BYTES_PER_SAMPLE

/-- The staleness check of the commit arm: when `response_active` holds,
a commit may proceed only by cancelling a stale turn (no delta for more
than 800 ms); a fresh turn rejects the commit (`none`). When idle the
commit proceeds with nothing to cancel. On cancellation the
`response_active` flag is cleared and one `response.cancel` directive
is emitted. -/
def staleCheck (now : Nat) (st : ClientState) : Option (ClientState × List Directive) :=
  if st.response_active then
    let elapsed := now - st.last_delta
    if 800 < elapsed then
      some ({ st with response_active := false }, [Directive.text cancel_msg])
    else none
  else some (st, [])

/-- The commit arm after the `inited` guard and the 100 ms sleep, at
time `now`: the audio gate (`audio_buffer_size < min_bytes` rejects),
then the staleness check, then forwarding `input_audio_buffer.commit`
and `response.create`, setting `response_active` and resetting the
audio counter. -/
def commitStep (now : Nat) (st : ClientState) : ClientState × List Directive :=
  if st.audio_buffer_size < min_bytes then (st, [])
  else
    match staleCheck now st with
    | none => (st, [])
    | some (st1, ds) =>
        ({ st1 with response_active := true, audio_buffer_size := 0 },
         ds ++ [Directive.text commit_msg_up, Directive.text create_msg])

/-- Frames arriving on the speaker websocket. A text frame carries the
JSON parse result of its payload (`none` when the payload is not JSON);
`other` stands for ping/pong frames. -/
inductive ClientFrame where
  | text (p : Option Json) : ClientFrame
  | binary (bytes : List Nat) : ClientFrame
  | close : ClientFrame
  | other : ClientFrame

/-- One iteration of the client-inbound loop of `handle_ws` at time
`now`: returns the new state, the directives sent upstream in order,
and whether the loop continues (`false` only on a close frame). Text
frames that do not parse as a `ClientMsg` fall through silently; init
configures the session and resets the counter; commit is guarded by the
`inited` flag, the audio gate and the staleness check; binary frames
are forwarded as audio appends once initialized. -/
def clientStep (now : Nat) (st : ClientState) (f : ClientFrame) :
    ClientState × List Directive × Bool :=
  match f with
  | ClientFrame.text p =>
    match p.bind parseClientMsg with
    | some (ClientMsg.Init name pair) =>
        let r := instructions_for pair name
        ({ st with inited := true, audio_buffer_size := 0 },
         [Directive.text (session_update_msg r.2 r.1)], true)
    | some ClientMsg.Commit =>
        if st.inited then
          ((commitStep now st).1, (commitStep now st).2, true)
        else (st, [], true)
    | none => (st, [], true)
  | ClientFrame.binary bytes =>
      if st.inited then
        ({ st with audio_buffer_size := st.audio_buffer_size + bytes.length },
         [Directive.audioAppend bytes], true)
      else (st, [], true)
  | ClientFrame.close => (st, [], false)
  | ClientFrame.other => (st, [], true)

/-- A flat-shape text-delta event carrying `s`. -/
def flat_delta_json (s : String) : Json :=
  Json.obj [("type", Json.str "response.output_text.delta"), ("delta", Json.str s)]

/-- A nested-shape text-delta event carrying `s`. -/
def nested_delta_json (s : String) : Json :=
  Json.obj [("type", Json.str "response.delta"),
            ("delta", Json.obj [("type", Json.str "output_text.delta"),
                                ("text", Json.str s)])]

/-- A done-style event. -/
def done_json : Json := Json.obj [("type", Json.str "response.done")]

/-- A sample upstream error event. -/
def error_json : Json :=
  Json.obj [("type", Json.str "error"), ("message", Json.str "boom")]

/-- The client `commit` message. -/
def commit_client_json : Json := Json.obj [("type", Json.str "commit")]

/-- The client `init` message with a display name and a pair code. -/
def init_client_json (name pair : String) : Json :=
  Json.obj [("type", Json.str "init"), ("name", Json.str name),
            ("pair", Json.str pair)]

theorem readerRun_append (l1 l2 : List (Nat × Json)) (st : ReaderState) :
    readerRun (l1 ++ l2) st =
      ((readerRun l2 (readerRun l1 st).1).1,
       (readerRun l1 st).2 ++ (readerRun l2 (readerRun l1 st).1).2) := by
  induction l1 generalizing st with
  | nil => simp [readerRun]
  | cons e rest ih => simp [readerRun, ih]

theorem readerStep_delta (now : Nat) (j : Json) (d : String) (st : ReaderState)
    (h : isDeltaEvent j d) :
    readerStep now j st =
      ({ current_buf := st.current_buf ++ d
         response_active := st.response_active
         last_delta := now },
       [Outward.partialEv (st.current_buf ++ d)]) := by
  rcases h with ⟨ht, hd⟩ | ⟨ht, dd, hdd, hty, htx⟩
  · rcases ht with ht | ht <;> simp [readerStep, ht, hd]
  · simp [readerStep, ht, hdd, hty, htx]

theorem readerStep_done_empty (now : Nat) (j : Json) (st : ReaderState)
    (h : isDoneEvent j) (hb : st.current_buf = "") :
    readerStep now j st = ({ st with response_active := false }, []) := by
  rcases h with ht | ht | ht | ht <;> simp [readerStep, ht, hb]

theorem readerStep_done_flush (now : Nat) (j : Json) (st : ReaderState)
    (h : isDoneEvent j) (hb : st.current_buf ≠ "") :
    readerStep now j st =
      ({ current_buf := ""
         response_active := false
         last_delta := st.last_delta },
       [Outward.finalEv st.current_buf]) := by
  rcases h with ht | ht | ht | ht <;> simp [readerStep, ht, hb]

theorem deltaRun_spec (l : List (Nat × Json)) (ds : List String)
    (h : List.Forall₂ (fun e d => isDeltaEvent e.2 d) l ds) (st : ReaderState) :
    (readerRun l st).1.current_buf = st.current_buf ++ concatAll ds ∧
    (readerRun l st).1.response_active = st.response_active ∧
    ((readerRun l st).2).filter isFinalEv = [] := by
  induction h generalizing st with
  | nil => simp [readerRun, concatAll]
  | @cons e d es ds1 hed htail ih =>
      have hstep := readerStep_delta e.1 e.2 d st hed
      have ihh := ih { current_buf := st.current_buf ++ d
                       response_active := st.response_active
                       last_delta := e.1 }
      refine ⟨?_, ?_, ?_⟩
      · simp only [readerRun, hstep]
        rw [ihh.1]
        simp [concatAll, String.append_assoc]
      · simp only [readerRun, hstep]
        exact ihh.2.1
      · simp only [readerRun, hstep, List.filter_append]
        simp [isFinalEv, ihh.2.2]

/-- C2: any sequence of upstream text-delta events (flat or nested
shape, mixed allowed) followed by a done-style event makes the adapter
emit exactly one `final` outward event whose text is the concatenation
of the delta strings in arrival order, and leaves the running buffer
cleared; a done-style event hitting an empty running buffer emits
nothing, in particular no `final`. -/
theorem delta_sequence_final
    (l : List (Nat × Json)) (ds : List String)
    (hl : List.Forall₂ (fun e d => isDeltaEvent e.2 d) l ds)
    (nd : Nat) (jd : Json) (hdone : isDoneEvent jd)
    (st : ReaderState) (hbuf : st.current_buf = "")
    (hne : concatAll ds ≠ "") :
    ((readerRun (l ++ [(nd, jd)]) st).2).filter isFinalEv =
        [Outward.finalEv (concatAll ds)] ∧
    (readerRun (l ++ [(nd, jd)]) st).1.current_buf = "" ∧
    ∀ (now : Nat) (st2 : ReaderState), st2.current_buf = "" →
      (readerStep now jd st2).2 = [] := by
  obtain ⟨h1, h2, h3⟩ := deltaRun_spec l ds hl st
  have hbuf1 : (readerRun l st).1.current_buf = concatAll ds := by
    rw [h1, hbuf, String.empty_append]
  have hne1 : (readerRun l st).1.current_buf ≠ "" := by rw [hbuf1]; exact hne
  have hstep := readerStep_done_flush nd jd (readerRun l st).1 hdone hne1
  refine ⟨?_, ?_, ?_⟩
  · rw [readerRun_append]
    simp [readerRun, hstep, List.filter_append, h3, isFinalEv, hbuf1]
  · rw [readerRun_append]
    simp [readerRun, hstep]
  · intro now st2 hb2
    rw [readerStep_done_empty now jd st2 hdone hb2]

theorem delta_sequence_final_witness :
    ((readerRun [(0, flat_delta_json "Hello "), (3, nested_delta_json "world"),
        (9, done_json)] ⟨"", false, 0⟩).2).filter isFinalEv =
      [Outward.finalEv "Hello world"] ∧
    (readerRun [(0, flat_delta_json "Hello "), (3, nested_delta_json "world"),
        (9, done_json)] ⟨"", false, 0⟩).1.current_buf = "" := by
  have h := delta_sequence_final
    [(0, flat_delta_json "Hello "), (3, nested_delta_json "world")]
    ["Hello ", "world"]
    (List.Forall₂.cons (Or.inl ⟨Or.inl rfl, rfl⟩)
      (List.Forall₂.cons
        (Or.inr ⟨rfl, Json.obj [("type", Json.str "output_text.delta"),
                                ("text", Json.str "world")], rfl, rfl, rfl⟩)
        List.Forall₂.nil))
    9 done_json (Or.inr (Or.inr (Or.inr rfl))) ⟨"", false, 0⟩ rfl (by decide)
  exact ⟨h.1, h.2.1⟩

/-- C4 counterexample: the claim says an upstream error event discards
the running buffer so its content never appears in a later outward
event. In the code the error arm clears only the active flag and leaves
`current_buf` intact: after a delta `abc`, an error, and a done event,
the aborted buffer `abc` is emitted as a later `final`. -/
theorem error_discards_buffer_cex :
    (readerStep 1 error_json ⟨"abc", true, 0⟩).1.current_buf = "abc" ∧
    (readerRun [(0, flat_delta_json "abc"), (1, error_json), (2, done_json)]
        ⟨"", true, 0⟩).2 =
      [Outward.partialEv "abc", Outward.errorEv error_json,
       Outward.finalEv "abc"] := by
  exact ⟨rfl, rfl⟩

/-- C4 amended: an upstream error event makes the adapter emit an
`error` outward event carrying the raw payload and clears the
turn-active flag, emitting no `final` at that point; the running text
buffer however is retained unchanged (not discarded), so its content
can still surface in a later `partial` or `final`. -/
theorem error_event_effect (now : Nat) (j : Json) (st : ReaderState)
    (h : eventType j = "error") :
    readerStep now j st = ({ st with response_active := false }, [Outward.errorEv j]) := by
  simp [readerStep, h]

theorem error_event_effect_witness :
    readerStep 3 error_json ⟨"abc", true, 7⟩ =
      ({ current_buf := "abc", response_active := false, last_delta := 7 },
       [Outward.errorEv error_json]) :=
  error_event_effect 3 error_json ⟨"abc", true, 7⟩ rfl

/-- C1: a gate-admitted commit while a turn is active is rejected with
no directive at all (no cancel, no new turn, state untouched) when the
elapsed time since the last fragment is at most 800 ms; when it exceeds
800 ms the staleness check clears the turn-active flag and emits one
`response.cancel`, and the commit then proceeds: exactly one cancel
followed by the buffer-commit and turn-start directives. -/
theorem commit_while_active_staleness
    (now : Nat) (st : ClientState) (j : Json)
    (hp : parseClientMsg j = some ClientMsg.Commit)
    (hinit : st.inited = true)
    (hgate : min_bytes ≤ st.audio_buffer_size)
    (hact : st.response_active = true) :
    (now - st.last_delta ≤ 800 →
      clientStep now st (ClientFrame.text (some j)) = (st, [], true)) ∧
    (800 < now - st.last_delta →
      staleCheck now st =
        some ({ st with response_active := false }, [Directive.text cancel_msg]) ∧
      clientStep now st (ClientFrame.text (some j)) =
        ({ st with response_active := true, audio_buffer_size := 0 },
         [Directive.text cancel_msg, Directive.text commit_msg_up,
          Directive.text create_msg], true)) := by
  have hg : ¬ st.audio_buffer_size < min_bytes := Nat.not_lt.mpr hgate
  constructor
  · intro hfresh
    have hs : staleCheck now st = none := by
      simp [staleCheck, hact, Nat.not_lt.mpr hfresh]
    simp [clientStep, hp, hinit, commitStep, hg, hs]
  · intro hstale
    have hs : staleCheck now st =
        some ({ st with response_active := false }, [Directive.text cancel_msg]) := by
      simp [staleCheck, hact, hstale]
    exact ⟨hs, by simp [clientStep, hp, hinit, commitStep, hg, hs]⟩

theorem commit_while_active_staleness_witness :
    clientStep 500 ⟨true, 5000, true, 100⟩
        (ClientFrame.text (some commit_client_json)) =
      (⟨true, 5000, true, 100⟩, [], true) ∧
    clientStep 2000 ⟨true, 5000, true, 100⟩
        (ClientFrame.text (some commit_client_json)) =
      (⟨true, 0, true, 100⟩,
       [Directive.text cancel_msg, Directive.text commit_msg_up,
        Directive.text create_msg], true) :=
  ⟨(commit_while_active_staleness 500 ⟨true, 5000, true, 100⟩ commit_client_json
      rfl rfl (by decide) rfl).1 (by decide),
   ((commit_while_active_staleness 2000 ⟨true, 5000, true, 100⟩ commit_client_json
      rfl rfl (by decide) rfl).2 (by decide)).2⟩

/-- C3: with the session initialized and no turn active, the audio gate
admits a commit exactly when the buffered byte count reaches
`min_bytes = (24000 * 100 / 1000) * 2 = 4800`: below it the commit is
rejected with no upstream directive at all; at or above it the
buffer-commit and turn-start directives are forwarded. -/
theorem audio_gate_admission
    (now : Nat) (st : ClientState) (j : Json)
    (hp : parseClientMsg j = some ClientMsg.Commit)
    (hinit : st.inited = true)
    (hidle : st.response_active = false) :
    min_bytes = (24000 * 100 / 1000) * 2 ∧ min_bytes = 4800 ∧
    (st.audio_buffer_size < 4800 →
      clientStep now st (ClientFrame.text (some j)) = (st, [], true)) ∧
    (4800 ≤ st.audio_buffer_size →
      clientStep now st (ClientFrame.text (some j)) =
        ({ st with response_active := true, audio_buffer_size := 0 },
         [Directive.text commit_msg_up, Directive.text create_msg], true)) := by
  refine ⟨rfl, rfl, ?_, ?_⟩
  · intro hlt
    have hg : st.audio_buffer_size < min_bytes := hlt
    simp [clientStep, hp, hinit, commitStep, hg]
  · intro hge
    have hg : ¬ st.audio_buffer_size < min_bytes := Nat.not_lt.mpr hge
    have hs : staleCheck now st = some (st, []) := by simp [staleCheck, hidle]
    simp [clientStep, hp, hinit, commitStep, hg, hs]

theorem audio_gate_admission_witness :
    clientStep 0 ⟨true, 4799, false, 0⟩
        (ClientFrame.text (some commit_client_json)) =
      (⟨true, 4799, false, 0⟩, [], true) ∧
    clientStep 0 ⟨true, 4800, false, 0⟩
        (ClientFrame.text (some commit_client_json)) =
      (⟨true, 0, true, 0⟩,
       [Directive.text commit_msg_up, Directive.text create_msg], true) :=
  ⟨(audio_gate_admission 0 ⟨true, 4799, false, 0⟩ commit_client_json
      rfl rfl rfl).2.2.1 (by decide),
   (audio_gate_admission 0 ⟨true, 4800, false, 0⟩ commit_client_json
      rfl rfl rfl).2.2.2 (by decide)⟩

/-- C5 counterexample: the claim says the Idle-to-Active transition of
an admitted commit resets the last-fragment timestamp to now (and
records a turn-start time). At time 1000, an admitted commit from state
with timestamp 5 starts a turn yet leaves the timestamp at 5, not 1000;
no turn-start time exists in the session state at all. -/
theorem start_turn_timestamp_cex :
    (clientStep 1000 ⟨true, 4800, false, 5⟩
        (ClientFrame.text (some commit_client_json))).1.response_active = true ∧
    (clientStep 1000 ⟨true, 4800, false, 5⟩
        (ClientFrame.text (some commit_client_json))).1.last_delta = 5 ∧
    (5 : Nat) ≠ 1000 :=
  ⟨rfl, rfl, by decide⟩

/-- C5 amended: an admitted commit from Idle sets the turn-active flag
and resets the audio counter, but records no turn-start time and leaves
the last-fragment timestamp unchanged; the timestamp is written only at
session creation and on received fragments, so staleness for the new
turn is measured from the most recent earlier fragment (or session
creation), not from the turn's start. -/
theorem start_turn_effect
    (now : Nat) (st : ClientState) (j : Json)
    (hp : parseClientMsg j = some ClientMsg.Commit)
    (hinit : st.inited = true)
    (hidle : st.response_active = false)
    (hgate : min_bytes ≤ st.audio_buffer_size) :
    clientStep now st (ClientFrame.text (some j)) =
      ({ st with response_active := true, audio_buffer_size := 0 },
       [Directive.text commit_msg_up, Directive.text create_msg], true) ∧
    (clientStep now st (ClientFrame.text (some j))).1.last_delta = st.last_delta := by
  have hg : ¬ st.audio_buffer_size < min_bytes := Nat.not_lt.mpr hgate
  have hs : staleCheck now st = some (st, []) := by simp [staleCheck, hidle]
  constructor
  · simp [clientStep, hp, hinit, commitStep, hg, hs]
  · simp [clientStep, hp, hinit, commitStep, hg, hs]

theorem start_turn_effect_witness :
    clientStep 1000 ⟨true, 6000, false, 5⟩
        (ClientFrame.text (some commit_client_json)) =
      (⟨true, 0, true, 5⟩,
       [Directive.text commit_msg_up, Directive.text create_msg], true) :=
  (start_turn_effect 1000 ⟨true, 6000, false, 5⟩ commit_client_json
    rfl rfl rfl (by decide)).1

/-- C6: every init message forwards exactly one session-configuration
directive upstream, and that `session.update` payload carries no
`turn_detection` field at all — so, contrary to the claim (and to the
comment in the source), automatic server-side turn detection is not
disabled: the upstream default remains in force. -/
theorem session_update_no_turn_detection
    (now : Nat) (st : ClientState) (name pair : String) :
    clientStep now st (ClientFrame.text (some (init_client_json name pair))) =
      ({ st with inited := true, audio_buffer_size := 0 },
       [Directive.text (session_update_msg (instructions_for pair name).2
          (instructions_for pair name).1)], true) ∧
    (∀ instr src_lang : String,
      (jget (session_update_msg instr src_lang) "session").bind
        (fun s => jget s "turn_detection") = none) := by
  constructor
  · simp [clientStep, init_client_json, parseClientMsg, jget, lookupKey, asStr]
  · intro instr src_lang
    rfl

/-- C7: a commit rejected by the audio gate or by the staleness check
leaves the accumulated-audio byte counter unchanged and sends nothing
upstream; an admitted commit forwards the buffer-commit directive and
resets the counter to zero in that same step (the reset follows the
forwarding in the source). -/
theorem commit_counter_frame
    (now : Nat) (st : ClientState) (j : Json)
    (hp : parseClientMsg j = some ClientMsg.Commit)
    (hinit : st.inited = true) :
    (st.audio_buffer_size < min_bytes →
      (clientStep now st (ClientFrame.text (some j))).1.audio_buffer_size
          = st.audio_buffer_size ∧
      (clientStep now st (ClientFrame.text (some j))).2.1 = []) ∧
    (st.response_active = true → now - st.last_delta ≤ 800 →
      (clientStep now st (ClientFrame.text (some j))).1.audio_buffer_size
          = st.audio_buffer_size ∧
      (clientStep now st (ClientFrame.text (some j))).2.1 = []) ∧
    (min_bytes ≤ st.audio_buffer_size →
      (st.response_active = false ∨ 800 < now - st.last_delta) →
      Directive.text commit_msg_up ∈
          (clientStep now st (ClientFrame.text (some j))).2.1 ∧
      (clientStep now st (ClientFrame.text (some j))).1.audio_buffer_size = 0) := by
  refine ⟨?_, ?_, ?_⟩
  · intro hlt
    constructor <;> simp [clientStep, hp, hinit, commitStep, hlt]
  · intro hact hfresh
    by_cases hlt : st.audio_buffer_size < min_bytes
    · constructor <;> simp [clientStep, hp, hinit, commitStep, hlt]
    · have hs : staleCheck now st = none := by
        simp [staleCheck, hact, Nat.not_lt.mpr hfresh]
      constructor <;> simp [clientStep, hp, hinit, commitStep, hlt, hs]
  · intro hge hok
    have hg : ¬ st.audio_buffer_size < min_bytes := Nat.not_lt.mpr hge
    rcases hok with hidle | hstale
    · have hs : staleCheck now st = some (st, []) := by simp [staleCheck, hidle]
      constructor <;> simp [clientStep, hp, hinit, commitStep, hg, hs]
    · by_cases hact : st.response_active
      · have hs : staleCheck now st =
            some ({ st with response_active := false }, [Directive.text cancel_msg]) := by
          simp [staleCheck, hact, hstale]
        constructor <;> simp [clientStep, hp, hinit, commitStep, hg, hs]
      · have hs : staleCheck now st = some (st, []) := by simp [staleCheck, hact]
        constructor <;> simp [clientStep, hp, hinit, commitStep, hg, hs]

theorem commit_counter_frame_witness :
    ((clientStep 50 ⟨true, 100, false, 0⟩
        (ClientFrame.text (some commit_client_json))).1.audio_buffer_size = 100 ∧
     (clientStep 50 ⟨true, 100, false, 0⟩
        (ClientFrame.text (some commit_client_json))).2.1 = []) ∧
    (Directive.text commit_msg_up ∈
        (clientStep 50 ⟨true, 9600, false, 0⟩
          (ClientFrame.text (some commit_client_json))).2.1 ∧
     (clientStep 50 ⟨true, 9600, false, 0⟩
        (ClientFrame.text (some commit_client_json))).1.audio_buffer_size = 0) :=
  ⟨(commit_counter_frame 50 ⟨true, 100, false, 0⟩ commit_client_json rfl rfl).1
      (by decide),
   (commit_counter_frame 50 ⟨true, 9600, false, 0⟩ commit_client_json rfl rfl).2.2
      (by decide) (Or.inl rfl)⟩

/-- C8: while the session is uninitialized, a commit message and a
binary audio frame are both silently dropped: no upstream directive,
state unchanged, loop continues. -/
theorem uninitialized_ignored
    (now : Nat) (st : ClientState) (j : Json) (bytes : List Nat)
    (hp : parseClientMsg j = some ClientMsg.Commit)
    (huninit : st.inited = false) :
    clientStep now st (ClientFrame.text (some j)) = (st, [], true) ∧
    clientStep now st (ClientFrame.binary bytes) = (st, [], true) := by
  constructor <;> simp [clientStep, hp, huninit]

theorem uninitialized_ignored_witness :
    clientStep 0 ⟨false, 7, false, 0⟩
        (ClientFrame.text (some commit_client_json)) =
      (⟨false, 7, false, 0⟩, [], true) ∧
    clientStep 0 ⟨false, 7, false, 0⟩ (ClientFrame.binary [1, 2, 3]) =
      (⟨false, 7, false, 0⟩, [], true) :=
  uninitialized_ignored 0 ⟨false, 7, false, 0⟩ commit_client_json [1, 2, 3] rfl rfl

/-- C10: a client text frame whose payload is not JSON, or whose JSON
does not parse as a structured init or commit message (unknown tag,
missing fields), is silently dropped: no upstream directive, state
(initialization flag and audio counter included) unchanged, loop
continues. -/
theorem unparseable_frame_ignored
    (now : Nat) (st : ClientState) (p : Option Json)
    (hp : p.bind parseClientMsg = none) :
    clientStep now st (ClientFrame.text p) = (st, [], true) := by
  simp [clientStep, hp]

theorem unparseable_frame_ignored_witness :
    clientStep 0 ⟨true, 42, false, 0⟩ (ClientFrame.text none) =
      (⟨true, 42, false, 0⟩, [], true) ∧
    clientStep 0 ⟨true, 42, false, 0⟩
        (ClientFrame.text (some (Json.obj [("type", Json.str "ping")]))) =
      (⟨true, 42, false, 0⟩, [], true) ∧
    clientStep 0 ⟨true, 42, false, 0⟩
        (ClientFrame.text (some (Json.obj [("type", Json.str "init"),
            ("name", Json.str "X")]))) =
      (⟨true, 42, false, 0⟩, [], true) :=
  ⟨unparseable_frame_ignored 0 ⟨true, 42, false, 0⟩ none rfl,
   unparseable_frame_ignored 0 ⟨true, 42, false, 0⟩
     (some (Json.obj [("type", Json.str "ping")])) rfl,
   unparseable_frame_ignored 0 ⟨true, 42, false, 0⟩
     (some (Json.obj [("type", Json.str "init"), ("name", Json.str "X")])) rfl⟩

/-- C9: for every language-pair code outside the recognized set, the
computed translation directive equals the one for the default pair
`id-en`: source-language hint `id` and the Indonesian-to-English
instruction, for every display name. -/
theorem unrecognized_pair_default (pair name : String)
    (h : pair ∉ recognized_pairs) :
    instructions_for pair name = instructions_for "id-en" name ∧
    instructions_for "id-en" name = ("id", json_instr "Indonesian" "English" name) := by
  simp [recognized_pairs] at h
  obtain ⟨h1, h2, h3, h4, h5, h6, h7, h8, h9, h10, h11, h12, h13, h14, h15,
    h16, h17, h18⟩ := h
  refine ⟨?_, rfl⟩
  simp [instructions_for, h1, h2, h3, h4, h5, h6, h7, h8, h9, h10, h11, h12,
    h13, h14, h15, h16, h17, h18]

theorem unrecognized_pair_default_witness :
    instructions_for "fr-en" "Bob" = instructions_for "id-en" "Bob" ∧
    instructions_for "id-en" "Bob" = ("id", json_instr "Indonesian" "English" "Bob") :=
  unrecognized_pair_default "fr-en" "Bob" (by decide)
